import Mathlib

-- Verification development for the session-scoped semantic memory engine
-- (PineconeMemoryManager) and the conversation-history fusion component of
-- the Voice-Ai-Assistant repository.
--
-- Modelling conventions:
-- * Machine floats (similarity scores, the 0.7 threshold, the 0.7/0.3
--   ranking weights) are modelled as exact rationals.
-- * Timestamps are modelled as integer epoch milliseconds; the source keeps
--   ISO strings and converts with new Date(ts).getTime() before arithmetic.
-- * The external Pinecone index is modelled as a list of scored rows in the
--   order the store would return them; index.query applies the metadata
--   filter to that list and truncates to topK, which is exactly the contract
--   the engine relies on.
-- * Fallible async calls are modelled by explicit boolean failure flags
--   (initialization failed / store call throws); functions that swallow
--   errors are total, functions that rethrow return Except MemoryError.

-- The metadata attributes persisted per record at the storage boundary
-- (see the upsert call in storeMemory): all values are scalar strings in
-- the source; sessionId uses the empty string as the "no session" sentinel.
structure StoredMeta where
  content : String
  userId : String
  sessionId : String
  query : String
  response : String
  sources : String
  timestamp : Int
  type : String
  confidence : String
deriving Repr, DecidableEq

-- One row of an index.query response: id, optional metadata, similarity
-- score assigned by the store.  The source guards with
-- "if (match.metadata && match.score && ...)", hence metadata is optional
-- and a zero score is treated as absent by JS truthiness.
structure ScoredMatch where
  id : String
  metadata : Option StoredMeta
  score : ℚ
deriving Repr, DecidableEq

-- Result metadata as rebuilt by searchMemories from stored attributes:
-- sources is split back on "|" (empty string means no sources) and
-- confidence is kept only when the stored string is nonempty.
structure ResultMeta where
  userId : String
  sessionId : String
  query : String
  response : String
  sources : List String
  timestamp : Int
  type : String
  confidence : Option String
deriving Repr, DecidableEq

structure MemorySearchResult where
  id : String
  content : String
  metadata : ResultMeta
  similarity : ℚ
deriving Repr, DecidableEq

-- Metadata of a MemoryDocument as returned by getUserMemories.  sessionId
-- is optional in the MemoryDocument interface; note that getUserMemories
-- never sets it when rebuilding documents.
structure DocMeta where
  userId : String
  sessionId : Option String
  query : String
  response : String
  sources : List String
  timestamp : Int
  type : String
  confidence : Option String
deriving Repr, DecidableEq

structure MemoryDocument where
  id : String
  content : String
  metadata : DocMeta
deriving Repr, DecidableEq

-- The MemoryError thrown by the explicit administrative operations.
structure MemoryError where
  message : String
  code : Option String
deriving Repr, DecidableEq

structure MemoryConfig where
  indexName : String
  maxResults : Nat
  similarityThreshold : ℚ
deriving Repr, DecidableEq

-- memoryConfig from the source; similarityThreshold is the float 0.7,
-- written as the exact rational 7/10 (mkRat keeps it kernel-computable).
def memoryConfig : MemoryConfig :=
  { indexName := "research-memory"
    maxResults := 10
    similarityThreshold := mkRat 7 10 }

-- JS "x || d" on an optional string: the empty string is falsy.
def jsStrOrElse (s : Option String) (dflt : String) : String :=
  match s with
  | none => dflt
  | some v => if v == "" then dflt else v

-- Input metadata of a document passed to storeMemory (before persistence).
structure MemoryDocMeta where
  userId : String
  sessionId : Option String
  query : String
  response : String
  sources : Option (List String)
  timestamp : Int
  type : String
  confidence : Option String
deriving Repr, DecidableEq

-- The attribute map written by the upsert inside storeMemory:
-- sessionId := document.metadata.sessionId || "", sources joined by "|",
-- confidence rendered to a string or "".
def upsertMeta (content : String) (dm : MemoryDocMeta) : StoredMeta :=
  { content := content
    userId := dm.userId
    sessionId := jsStrOrElse dm.sessionId ""
    query := dm.query
    response := dm.response
    sources := jsStrOrElse (dm.sources.map (String.intercalate "|")) ""
    timestamp := dm.timestamp
    type := dm.type
    confidence := jsStrOrElse dm.confidence "" }

structure StoredRecord where
  id : String
  meta : StoredMeta
deriving Repr, DecidableEq

-- Outcome of storeMemory: the returned string plus what (if anything) was
-- persisted.  The source returns "memory_disabled" when not initialized,
-- "memory_error" when the upsert throws (swallowing the error), and the
-- generated id on success.
structure StoreOutcome where
  returnValue : String
  upserted : Option StoredRecord
deriving Repr, DecidableEq

def storeMemory (initialized upsertFails : Bool) (id : String)
    (content : String) (dm : MemoryDocMeta) : StoreOutcome :=
  if !initialized then { returnValue := "memory_disabled", upserted := none }
  else if upsertFails then { returnValue := "memory_error", upserted := none }
  else { returnValue := id, upserted := some { id := id, meta := upsertMeta content dm } }

-- JS truthiness of the optional sessionId argument of searchMemories:
-- "if (sessionId)" is false for undefined and for the empty string.
def sessionGiven : Option String → Bool
  | none => false
  | some s => s != ""

-- The metadata filter searchMemories sends to index.query:
-- always userId $eq; sessionId $eq when a session is given, else
-- sessionId $ne "" (exclude orphaned records from the default search).
def searchFilter (userId : String) (sid : Option String) (md : StoredMeta) : Bool :=
  md.userId == userId &&
    (if sessionGiven sid then md.sessionId == sid.getD "" else md.sessionId != "")

-- A row matches a metadata filter only if it carries metadata.
def rowMatches (f : StoredMeta → Bool) (m : ScoredMatch) : Bool :=
  match m.metadata with
  | none => false
  | some md => f md

-- Model of index.query: the rows of the store that satisfy the filter, in
-- store order, truncated to topK.
def indexQuery (rows : List ScoredMatch) (f : StoredMeta → Bool) (topK : Nat) :
    List ScoredMatch :=
  (rows.filter (rowMatches f)).take topK

-- Rebuild result metadata from stored attributes (the push inside the
-- result loop of searchMemories).
def toResultMeta (md : StoredMeta) : ResultMeta :=
  { userId := md.userId
    sessionId := md.sessionId
    query := md.query
    response := md.response
    sources := if md.sources == "" then [] else md.sources.splitOn "|"
    timestamp := md.timestamp
    type := md.type
    confidence := if md.confidence == "" then none else some md.confidence }

-- The body of the per-match loop of searchMemories: keep a match only if
-- it has metadata, a truthy score at or above the similarity threshold,
-- and (when a session was requested) an exactly matching, nonempty
-- sessionId (the defense-in-depth rechecks of the source).
def keepMatch (sid : Option String) (m : ScoredMatch) : Option MemorySearchResult :=
  match m.metadata with
  | none => none
  | some md =>
    if m.score ≠ 0 ∧ memoryConfig.similarityThreshold ≤ m.score then
      if sessionGiven sid = true ∧ md.sessionId ≠ sid.getD "" then none
      else if sessionGiven sid = true ∧ md.sessionId = "" then none
      else some { id := m.id
                  content := md.content
                  metadata := toResultMeta md
                  similarity := m.score }
    else none

-- Recency factor of the ranking comparator: Math.max(0, 1 - age / 24h),
-- with the age in milliseconds.
def recencyScore (now ts : Int) : ℚ :=
  max 0 (1 - ((now - ts : Int) : ℚ) / (24 * 60 * 60 * 1000))

-- Combined ranking score: 70 percent similarity plus 30 percent recency.
def combinedScore (now : Int) (r : MemorySearchResult) : ℚ :=
  r.similarity * (7 / 10) + recencyScore now r.metadata.timestamp * (3 / 10)

-- The comparator passed to Array.prototype.sort, as the induced order:
-- a is placed before b when the combined score of a is at least that of b.
-- Array.prototype.sort is a stable sort, modelled by insertionSort (stable
-- for this total preorder).
def rankedBefore (now : Int) : MemorySearchResult → MemorySearchResult → Prop :=
  fun a b => combinedScore now b ≤ combinedScore now a

instance (now : Int) : DecidableRel (rankedBefore now) :=
  fun a b => inferInstanceAs (Decidable (combinedScore now b ≤ combinedScore now a))

instance (now : Int) : IsTotal MemorySearchResult (rankedBefore now) :=
  ⟨fun a b => le_total (combinedScore now b) (combinedScore now a)⟩

instance (now : Int) : IsTrans MemorySearchResult (rankedBefore now) :=
  ⟨fun _ _ _ h1 h2 => le_trans h2 h1⟩

-- searchMemories: empty on not-initialized and on store failure; otherwise
-- query with topK = max(limit*2, 10), filter matches through keepMatch,
-- sort by the combined score, truncate to limit.  (The debug-only second
-- query of the source has no effect on the returned value and is omitted.)
def searchMemories (initialized storeFails : Bool) (rows : List ScoredMatch)
    (userId : String) (limit : Nat) (sid : Option String) (now : Int) :
    List MemorySearchResult :=
  if !initialized then []
  else if storeFails then []
  else
    (List.insertionSort (rankedBefore now)
      ((indexQuery rows (searchFilter userId sid) (max (limit * 2) 10)).filterMap
        (keepMatch sid))).take limit

def notInitializedError : MemoryError :=
  { message := "Memory manager is not initialized", code := none }

-- Rebuild a MemoryDocument from a stored row (the loop in getUserMemories).
-- Note: the source does not copy sessionId into the document metadata.
def rowToDocument (m : ScoredMatch) : Option MemoryDocument :=
  match m.metadata with
  | none => none
  | some md =>
    some { id := m.id
           content := md.content
           metadata :=
             { userId := md.userId
               sessionId := none
               query := md.query
               response := md.response
               sources := if md.sources == "" then [] else md.sources.splitOn "|"
               timestamp := md.timestamp
               type := md.type
               confidence := if md.confidence == "" then none else some md.confidence } }

-- getUserMemories: throws when not initialized or when the store call
-- fails; otherwise enumerates up to 1000 rows of the user (userId $eq
-- filter only) and rebuilds documents.
def getUserMemories (initialized queryFails : Bool) (rows : List ScoredMatch)
    (userId : String) : Except MemoryError (List MemoryDocument) :=
  if !initialized then .error notInitializedError
  else if queryFails then
    .error { message := "Failed to get user memories", code := none }
  else
    .ok ((indexQuery rows (fun md => md.userId == userId) 1000).filterMap rowToDocument)

-- deleteMemory: throws when not initialized or when deleteOne fails;
-- otherwise returns true unconditionally (index.deleteOne reports no
-- affected count, and the source never checks existence).
def deleteMemory (initialized deleteFails : Bool) (_rows : List ScoredMatch)
    (_id : String) : Except MemoryError Bool :=
  if !initialized then .error notInitializedError
  else if deleteFails then
    .error { message := "Failed to delete memory", code := none }
  else .ok true

-- The id set resolved by deleteSessionMemories: a 1000-row enumeration
-- page filtered on sessionId $eq only (no userId in the filter).
def deleteSessionIds (rows : List ScoredMatch) (sessionId : String) : List String :=
  (indexQuery rows (fun md => md.sessionId == sessionId) 1000).map (fun m => m.id)

def deleteSessionMemories (initialized opFails : Bool) (rows : List ScoredMatch)
    (sessionId : String) : Except MemoryError Nat :=
  if !initialized then .error notInitializedError
  else if opFails then
    .error { message := "Failed to delete session memories", code := none }
  else .ok (deleteSessionIds rows sessionId).length

def deleteUserIds (rows : List ScoredMatch) (userId : String) : List String :=
  (indexQuery rows (fun md => md.userId == userId) 1000).map (fun m => m.id)

def deleteUserMemories (initialized opFails : Bool) (rows : List ScoredMatch)
    (userId : String) : Except MemoryError Nat :=
  if !initialized then .error notInitializedError
  else if opFails then
    .error { message := "Failed to delete user memories", code := none }
  else .ok (deleteUserIds rows userId).length

-- Conversation history fusion (VoiceInput.tsx).  A chat message with its
-- role, raw timestamp string and content; fmtTime models
-- new Date(ts).toLocaleTimeString(), a locale-dependent rendering passed
-- in as a parameter.
structure ChatMessage where
  role : String
  timestamp : String
  content : String
deriving Repr, DecidableEq

def roleLabel (m : ChatMessage) : String :=
  if m.role == "user" then "User" else "Assistant"

-- One line of the formatted history: "{index}. {role} ({time}): {content}"
-- with a 1-based index.
def formatLine (fmtTime : String → String) (i : Nat) (m : ChatMessage) : String :=
  toString (i + 1) ++ ". " ++ roleLabel m ++ " (" ++ fmtTime m.timestamp ++ "): " ++ m.content

-- formatConversationHistory: empty for an empty list, else the formatted
-- lines joined with blank lines.
def formatConversationHistory (fmtTime : String → String) (messages : List ChatMessage) : String :=
  if messages.length = 0 then ""
  else String.intercalate "\n\n" (messages.mapIdx (formatLine fmtTime))

-- loadConversationMemory degrades to none when the chat manager is not
-- ready, when the session does not exist, or when the store call throws.
def loadConversationMemory (chatReady loadFails : Bool)
    (sess : Option (List ChatMessage)) : Option (List ChatMessage) :=
  if !chatReady then none
  else if loadFails then none
  else sess

def historyHeader : String := "CONVERSATION HISTORY:\n"

def historyFooter : String :=
  "\n\nIMPORTANT: Use this conversation history to understand the context. If the user asks follow-up questions using words like \"its\", \"this\", \"that\", \"they\", \"them\", \"those\", \"it\", refer to the previous conversation to understand what they\x27re referring to. Pay special attention to the most recent exchanges for context."

-- getConversationContext: empty string when the history cannot be loaded
-- or is empty; otherwise the last 15 messages (slice(-15)), formatted and
-- wrapped between the header and the follow-up instruction.
def getConversationContext (fmtTime : String → String) (chatReady loadFails : Bool)
    (sess : Option (List ChatMessage)) : String :=
  match loadConversationMemory chatReady loadFails sess with
  | none => ""
  | some msgs =>
    if msgs.length = 0 then ""
    else
      let recentMessages := msgs.drop (msgs.length - 15)
      let recentHistory := formatConversationHistory fmtTime recentMessages
      historyHeader ++ recentHistory ++ historyFooter

-- Shared sample data used by the concrete witness theorems below.
def sampleMeta : StoredMeta :=
  { content := "c1", userId := "u1", sessionId := "s1", query := "q1"
    response := "r1", sources := "", timestamp := 0, type := "conversation"
    confidence := "" }

def sampleRow : ScoredMatch := { id := "m1", metadata := some sampleMeta, score := mkRat 9 10 }

def sampleResult : MemorySearchResult :=
  { id := "m1", content := "c1"
    metadata := { userId := "u1", sessionId := "s1", query := "q1", response := "r1"
                  sources := [], timestamp := 0, type := "conversation", confidence := none }
    similarity := mkRat 9 10 }

def sampleDocMeta : MemoryDocMeta :=
  { userId := "u1", sessionId := none, query := "q1", response := "r1"
    sources := none, timestamp := 0, type := "conversation", confidence := none }

def sampleStoredRec : StoredRecord := { id := "m1", meta := upsertMeta "c1" sampleDocMeta }

def sampleDocument : MemoryDocument :=
  { id := "m1", content := "c1"
    metadata := { userId := "u1", sessionId := none, query := "q1", response := "r1"
                  sources := [], timestamp := 0, type := "conversation", confidence := none } }

-- Relabel the owner of a row, leaving everything else unchanged; used to
-- state that session-scoped deletion does not depend on userId.
def setRowUserId (f : String → String) (m : ScoredMatch) : ScoredMatch :=
  { m with metadata := m.metadata.map (fun md => { md with userId := f md.userId }) }

-- Rows returned by index.query lie in the store and satisfy the filter.
theorem mem_indexQuery {rows : List ScoredMatch} {f : StoredMeta → Bool} {k : Nat}
    {m : ScoredMatch} (h : m ∈ indexQuery rows f k) :
    m ∈ rows ∧ rowMatches f m = true := by
  unfold indexQuery at h
  exact List.mem_filter.mp (List.take_subset _ _ h)

-- Anatomy of a match that survives the result loop of searchMemories.
theorem keepMatch_some {sid : Option String} {m : ScoredMatch} {r : MemorySearchResult}
    (h : keepMatch sid m = some r) :
    ∃ md, m.metadata = some md ∧
      r.similarity = m.score ∧
      r.metadata = toResultMeta md ∧
      memoryConfig.similarityThreshold ≤ m.score ∧
      (sessionGiven sid = true → md.sessionId = sid.getD "" ∧ md.sessionId ≠ "") := by
  obtain ⟨mid, mmeta, mscore⟩ := m
  cases mmeta with
  | none => simp [keepMatch] at h
  | some md =>
    refine ⟨md, rfl, ?_⟩
    simp only [keepMatch] at h
    by_cases h1 : mscore ≠ 0 ∧ memoryConfig.similarityThreshold ≤ mscore
    · rw [if_pos h1] at h
      by_cases h2 : sessionGiven sid = true ∧ md.sessionId ≠ sid.getD ""
      · rw [if_pos h2] at h; cases h
      · rw [if_neg h2] at h
        by_cases h3 : sessionGiven sid = true ∧ md.sessionId = ""
        · rw [if_pos h3] at h; cases h
        · rw [if_neg h3] at h
          have hr := Option.some.inj h
          subst hr
          refine ⟨rfl, rfl, h1.2, fun hg => ⟨?_, ?_⟩⟩
          · by_contra hne
            exact h2 ⟨hg, hne⟩
          · intro hemp
            exact h3 ⟨hg, hemp⟩
    · rw [if_neg h1] at h; cases h

-- Every returned result arises from a queried row surviving the loop.
theorem mem_searchMemories {i e : Bool} {rows : List ScoredMatch} {uid : String}
    {lim : Nat} {sid : Option String} {now : Int} {r : MemorySearchResult}
    (h : r ∈ searchMemories i e rows uid lim sid now) :
    ∃ m, m ∈ indexQuery rows (searchFilter uid sid) (max (lim * 2) 10) ∧
      keepMatch sid m = some r := by
  unfold searchMemories at h
  split_ifs at h with h1 h2
  · cases h
  · cases h
  · have h3 := List.take_subset _ _ h
    have h4 := ((List.perm_insertionSort (rankedBefore now) _).mem_iff).mp h3
    obtain ⟨m, hm, hk⟩ := List.mem_filterMap.mp h4
    exact ⟨m, hm, hk⟩

/-- Claim C1: session isolation.  Every result of a search scoped to a
nonempty session A carries sessionId A, hence is never a record stored
under any other session B; the symmetric direction for a search scoped to
B is this statement with A and B interchanged. -/
theorem searchMemories_session_isolation
    (i e : Bool) (rows : List ScoredMatch) (uid : String) (lim : Nat) (now : Int)
    (A B : String) (hA : A ≠ "") (hAB : A ≠ B)
    (r : MemorySearchResult)
    (hr : r ∈ searchMemories i e rows uid lim (some A) now) :
    r.metadata.sessionId = A ∧ r.metadata.sessionId ≠ B := by
  obtain ⟨m, hmq, hkeep⟩ := mem_searchMemories hr
  obtain ⟨md, hmd, hsim, hrm, hth, hsess⟩ := keepMatch_some hkeep
  have hgiven : sessionGiven (some A) = true := by
    simp [sessionGiven, hA]
  obtain ⟨heq, hne⟩ := hsess hgiven
  have hsid : r.metadata.sessionId = A := by
    rw [hrm]
    simpa [toResultMeta] using heq
  exact ⟨hsid, by rw [hsid]; exact hAB⟩

/-- Witness for C1 at concrete data: a record stored under session s1 and
returned by a search scoped to s1 carries sessionId s1, not s2. -/
theorem searchMemories_session_isolation_witness :
    sampleResult.metadata.sessionId = "s1" ∧ sampleResult.metadata.sessionId ≠ "s2" :=
  searchMemories_session_isolation true false [sampleRow] "u1" 5 0 "s1" "s2"
    (by decide) (by decide) sampleResult (by decide)

/-- Claim C2: orphan exclusion.  A document stored without a sessionId is
persisted with the empty-string sentinel, and no search result ever
carries the empty sessionId: a session-scoped search rejects it in the
defense-in-depth recheck, and the default (session-omitted) search
excludes it through the sessionId-not-empty store filter. -/
theorem searchMemories_orphan_exclusion :
    (∀ (content : String) (dm : MemoryDocMeta) (id : String) (rec : StoredRecord),
        dm.sessionId = none →
        (storeMemory true false id content dm).upserted = some rec →
        rec.meta.sessionId = "") ∧
    (∀ (i e : Bool) (rows : List ScoredMatch) (uid : String) (lim : Nat)
        (sid : Option String) (now : Int) (r : MemorySearchResult),
        r ∈ searchMemories i e rows uid lim sid now →
        r.metadata.sessionId ≠ "") := by
  constructor
  · intro content dm id rec hnone hup
    have : rec = { id := id, meta := upsertMeta content dm } := by
      simpa [storeMemory] using hup.symm
    rw [this]
    simp [upsertMeta, hnone, jsStrOrElse]
  · intro i e rows uid lim sid now r hr
    obtain ⟨m, hmq, hkeep⟩ := mem_searchMemories hr
    obtain ⟨md, hmd, hsim, hrm, hth, hsess⟩ := keepMatch_some hkeep
    have hms : r.metadata.sessionId = md.sessionId := by
      rw [hrm]; rfl
    cases hgiven : sessionGiven sid with
    | true =>
      rw [hms]
      exact (hsess hgiven).2
    | false =>
      obtain ⟨hmem, hmatch⟩ := mem_indexQuery hmq
      rw [hms]
      unfold rowMatches at hmatch
      rw [hmd] at hmatch
      unfold searchFilter at hmatch
      rw [hgiven] at hmatch
      simp at hmatch
      exact hmatch.2

/-- Witness for C2 at concrete data: storing a document without a session
persists the empty sentinel, and a concrete search result has a nonempty
sessionId. -/
theorem searchMemories_orphan_exclusion_witness :
    sampleStoredRec.meta.sessionId = "" ∧ sampleResult.metadata.sessionId ≠ "" :=
  ⟨searchMemories_orphan_exclusion.1 "c1" sampleDocMeta "m1" sampleStoredRec rfl rfl,
   searchMemories_orphan_exclusion.2 true false [sampleRow] "u1" 5 (some "s1") 0
     sampleResult (by decide)⟩

/-- Claim C4: threshold enforcement.  The configured similarity threshold
is exactly 0.70, and every result returned by searchMemories has raw
store-assigned similarity at or above it; candidates below the threshold
are discarded in the result loop before ranking. -/
theorem searchMemories_threshold :
    memoryConfig.similarityThreshold = 7 / 10 ∧
    ∀ (i e : Bool) (rows : List ScoredMatch) (uid : String) (lim : Nat)
      (sid : Option String) (now : Int) (r : MemorySearchResult),
      r ∈ searchMemories i e rows uid lim sid now →
      memoryConfig.similarityThreshold ≤ r.similarity := by
  constructor
  · show (mkRat 7 10 : ℚ) = 7 / 10
    norm_num [Rat.mkRat_eq_div]
  · intro i e rows uid lim sid now r hr
    obtain ⟨m, hmq, hkeep⟩ := mem_searchMemories hr
    obtain ⟨md, hmd, hsim, hrm, hth, hsess⟩ := keepMatch_some hkeep
    rw [hsim]
    exact hth

/-- Witness for C4 at concrete data: the concrete search result has
similarity 0.9, above the 0.70 threshold. -/
theorem searchMemories_threshold_witness :
    memoryConfig.similarityThreshold ≤ sampleResult.similarity :=
  searchMemories_threshold.2 true false [sampleRow] "u1" 5 (some "s1") 0
    sampleResult (by decide)

/-- Claim C3: ranking.  The returned list has at most limit elements and is
ordered descending by the combined score 0.7 x similarity + 0.3 x recency;
the recency factor is 1 for a record timestamped now, 0 for a record at
least 24 hours old, and never negative. -/
theorem searchMemories_ranking :
    (∀ (i e : Bool) (rows : List ScoredMatch) (uid : String) (lim : Nat)
        (sid : Option String) (now : Int),
        (searchMemories i e rows uid lim sid now).length ≤ lim ∧
        List.Pairwise (fun a b => combinedScore now b ≤ combinedScore now a)
          (searchMemories i e rows uid lim sid now)) ∧
    (∀ now : Int, recencyScore now now = 1) ∧
    (∀ now ts : Int, 24 * 60 * 60 * 1000 ≤ now - ts → recencyScore now ts = 0) ∧
    (∀ now ts : Int, 0 ≤ recencyScore now ts) := by
  refine ⟨?_, ?_, ?_, ?_⟩
  · intro i e rows uid lim sid now
    unfold searchMemories
    split_ifs
    · simp
    · simp
    · constructor
      · rw [List.length_take]
        exact min_le_left _ _
      · exact List.Pairwise.sublist (List.take_sublist _ _)
          (List.sorted_insertionSort (rankedBefore now)
            ((indexQuery rows (searchFilter uid sid) (max (lim * 2) 10)).filterMap
              (keepMatch sid)))
  · intro now
    unfold recencyScore
    have h0 : ((now - now : Int) : ℚ) = 0 := by
      simp
    rw [h0, zero_div, sub_zero]
    exact max_eq_right zero_le_one
  · intro now ts h
    have hd : (24 * 60 * 60 * 1000 : ℚ) ≤ ((now - ts : Int) : ℚ) := by
      exact_mod_cast h
    have hone : (1 : ℚ) ≤ ((now - ts : Int) : ℚ) / (24 * 60 * 60 * 1000) := by
      rw [le_div_iff₀ (by norm_num : (0:ℚ) < 24 * 60 * 60 * 1000)]
      linarith
    unfold recencyScore
    exact max_eq_left (by linarith)
  · intro now ts
    unfold recencyScore
    exact le_max_left 0 _

/-- Witness for C3 at concrete data: a concrete search returns at most 5
results, and a record exactly 24 hours old has recency 0. -/
theorem searchMemories_ranking_witness :
    (searchMemories true false [sampleRow] "u1" 5 (some "s1") 0).length ≤ 5 ∧
    recencyScore 86400000 0 = 0 :=
  ⟨(searchMemories_ranking.1 true false [sampleRow] "u1" 5 (some "s1") 0).1,
   searchMemories_ranking.2.2.1 86400000 0 (by decide)⟩

/-- Claim C7: ranking determinism.  The combined score induces a total and
transitive (hence stable total) order on candidates, and searchMemories is
a function of its inputs: two runs on identical inputs and identical store
responses return the same output list in the same order. -/
theorem searchMemories_determinism :
    (∀ (now : Int) (a b : MemorySearchResult),
        combinedScore now b ≤ combinedScore now a ∨
        combinedScore now a ≤ combinedScore now b) ∧
    (∀ (now : Int) (a b c : MemorySearchResult),
        combinedScore now b ≤ combinedScore now a →
        combinedScore now c ≤ combinedScore now b →
        combinedScore now c ≤ combinedScore now a) ∧
    (∀ (i e : Bool) (rows rows2 : List ScoredMatch) (uid : String) (lim : Nat)
        (sid : Option String) (now : Int),
        rows = rows2 →
        searchMemories i e rows uid lim sid now =
          searchMemories i e rows2 uid lim sid now) := by
  refine ⟨?_, ?_, ?_⟩
  · intro now a b
    exact le_total _ _
  · intro now a b c h1 h2
    exact le_trans h2 h1
  · intro i e rows rows2 uid lim sid now hrows
    rw [hrows]

/-- Witness for C7 at concrete data: the order is reflexive-transitive on a
concrete result and re-running a concrete search yields the same list. -/
theorem searchMemories_determinism_witness :
    combinedScore 0 sampleResult ≤ combinedScore 0 sampleResult ∧
    searchMemories true false [sampleRow] "u1" 5 (some "s1") 0 =
      searchMemories true false [sampleRow] "u1" 5 (some "s1") 0 :=
  ⟨searchMemories_determinism.2.1 0 sampleResult sampleResult sampleResult
     (le_refl _) (le_refl _),
   searchMemories_determinism.2.2 true false [sampleRow] [sampleRow] "u1" 5
     (some "s1") 0 rfl⟩

/-- Claim C5: degradation split.  When the engine is not initialized or
the store call fails, searchMemories returns the empty list and
storeMemory returns the "memory_disabled" / "memory_error" sentinel
strings (both are total functions in this model, mirroring that the
source swallows the error), while getUserMemories surfaces a MemoryError
in both failure modes instead of degrading. -/
theorem memory_degradation_split :
    (∀ (e : Bool) (rows : List ScoredMatch) (uid : String) (lim : Nat)
        (sid : Option String) (now : Int),
        searchMemories false e rows uid lim sid now = []) ∧
    (∀ (rows : List ScoredMatch) (uid : String) (lim : Nat)
        (sid : Option String) (now : Int),
        searchMemories true true rows uid lim sid now = []) ∧
    (∀ (u : Bool) (id content : String) (dm : MemoryDocMeta),
        (storeMemory false u id content dm).returnValue = "memory_disabled") ∧
    (∀ (id content : String) (dm : MemoryDocMeta),
        (storeMemory true true id content dm).returnValue = "memory_error") ∧
    (∀ (q : Bool) (rows : List ScoredMatch) (uid : String),
        getUserMemories false q rows uid = .error notInitializedError) ∧
    (∀ (rows : List ScoredMatch) (uid : String),
        getUserMemories true true rows uid =
          .error { message := "Failed to get user memories", code := none }) := by
  refine ⟨?_, ?_, ?_, ?_, ?_, ?_⟩ <;> intros <;> rfl

/-- Claim C6 is false as stated on the deleteMemory clause: for an id not
present in the store (here the store is empty), deleteMemory returns
true, not false — index.deleteOne reports no affected count and the
source returns true unconditionally when the call does not throw. -/
theorem deleteMemory_missing_id_counterexample :
    deleteMemory true false [] "missing" = .ok true ∧
    deleteMemory true false [] "missing" ≠ .ok false := by
  constructor
  · rfl
  · intro h
    simp [deleteMemory] at h

/-- Claim C6 amended: deleteMemory returns true (not an error) even for an
id that is not in the store; deleteSessionMemories and deleteUserMemories
return 0 when no record matches; and each of the three operations fails
only when the engine is uninitialized or the store call fails. -/
theorem delete_operations_amended :
    (∀ (rows : List ScoredMatch) (id : String),
        deleteMemory true false rows id = .ok true) ∧
    (∀ (rows : List ScoredMatch) (sid : String),
        (∀ m ∈ rows, rowMatches (fun md => md.sessionId == sid) m = false) →
        deleteSessionMemories true false rows sid = .ok 0) ∧
    (∀ (rows : List ScoredMatch) (uid : String),
        (∀ m ∈ rows, rowMatches (fun md => md.userId == uid) m = false) →
        deleteUserMemories true false rows uid = .ok 0) ∧
    (∀ (i f : Bool) (rows : List ScoredMatch) (id : String) (err : MemoryError),
        deleteMemory i f rows id = .error err → i = false ∨ f = true) ∧
    (∀ (i f : Bool) (rows : List ScoredMatch) (sid : String) (err : MemoryError),
        deleteSessionMemories i f rows sid = .error err → i = false ∨ f = true) ∧
    (∀ (i f : Bool) (rows : List ScoredMatch) (uid : String) (err : MemoryError),
        deleteUserMemories i f rows uid = .error err → i = false ∨ f = true) := by
  refine ⟨?_, ?_, ?_, ?_, ?_, ?_⟩
  · intro rows id
    rfl
  · intro rows sid h
    have hfil : rows.filter (rowMatches (fun md => md.sessionId == sid)) = [] := by
      rw [List.filter_eq_nil_iff]
      intro m hm
      rw [h m hm]
      exact Bool.false_ne_true
    simp [deleteSessionMemories, deleteSessionIds, indexQuery, hfil]
  · intro rows uid h
    have hfil : rows.filter (rowMatches (fun md => md.userId == uid)) = [] := by
      rw [List.filter_eq_nil_iff]
      intro m hm
      rw [h m hm]
      exact Bool.false_ne_true
    simp [deleteUserMemories, deleteUserIds, indexQuery, hfil]
  · intro i f rows id err h
    cases i
    · exact Or.inl rfl
    · cases f
      · simp [deleteMemory] at h
      · exact Or.inr rfl
  · intro i f rows sid err h
    cases i
    · exact Or.inl rfl
    · cases f
      · simp [deleteSessionMemories] at h
      · exact Or.inr rfl
  · intro i f rows uid err h
    cases i
    · exact Or.inl rfl
    · cases f
      · simp [deleteUserMemories] at h
      · exact Or.inr rfl

/-- Witness for the amended C6 at concrete data: a delete of an absent id
returns true, deletes scoped to an unmatched session and user return 0,
and a failing delete implies one of the two failure flags. -/
theorem delete_operations_amended_witness :
    deleteMemory true false [] "absent" = .ok true ∧
    deleteSessionMemories true false [sampleRow] "nosuch" = .ok 0 ∧
    deleteUserMemories true false [sampleRow] "nouser" = .ok 0 ∧
    (false = false ∨ false = true) :=
  ⟨delete_operations_amended.1 [] "absent",
   delete_operations_amended.2.1 [sampleRow] "nosuch" (by decide),
   delete_operations_amended.2.2.1 [sampleRow] "nouser" (by decide),
   delete_operations_amended.2.2.2.1 false false [] "x" notInitializedError rfl⟩

/-- Claim C8: conversation history fusion.  getConversationContext returns
the empty string when the chat manager is not ready, when loading throws,
when the session is absent, and when it has no messages; otherwise it
returns the last 15 messages (a suffix of the transcript, hence oldest
first and most recent, of length min(n,15)), each rendered by formatLine
as "{index}. {role} ({time}): {content}", joined with blank lines and
wrapped between the header and the pronoun-resolution instruction. -/
theorem getConversationContext_spec :
    (∀ (ft : String → String) (lf : Bool) (sess : Option (List ChatMessage)),
        getConversationContext ft false lf sess = "") ∧
    (∀ (ft : String → String) (sess : Option (List ChatMessage)),
        getConversationContext ft true true sess = "") ∧
    (∀ ft : String → String, getConversationContext ft true false none = "") ∧
    (∀ ft : String → String, getConversationContext ft true false (some []) = "") ∧
    (∀ (ft : String → String) (msgs : List ChatMessage), msgs ≠ [] →
        getConversationContext ft true false (some msgs) =
          historyHeader ++
            String.intercalate "\n\n"
              ((msgs.drop (msgs.length - 15)).mapIdx (formatLine ft)) ++
            historyFooter) ∧
    (∀ msgs : List ChatMessage,
        (msgs.drop (msgs.length - 15)).length = min msgs.length 15 ∧
        (msgs.drop (msgs.length - 15)).IsSuffix msgs) := by
  refine ⟨?_, ?_, ?_, ?_, ?_, ?_⟩
  · intro ft lf sess
    cases lf <;> rfl
  · intro ft sess
    rfl
  · intro ft
    rfl
  · intro ft
    rfl
  · intro ft msgs hne
    have hlen : ¬ msgs.length = 0 := fun h0 => hne (List.length_eq_zero.mp h0)
    have h1 : getConversationContext ft true false (some msgs) =
        if msgs.length = 0 then ""
        else historyHeader ++
          formatConversationHistory ft (msgs.drop (msgs.length - 15)) ++ historyFooter := rfl
    have hlen2 : ¬ (msgs.drop (msgs.length - 15)).length = 0 := by
      rw [List.length_drop]
      omega
    rw [h1, if_neg hlen]
    unfold formatConversationHistory
    rw [if_neg hlen2]
  · intro msgs
    constructor
    · rw [List.length_drop]
      omega
    · exact List.drop_suffix _ _

/-- Witness for C8 at concrete data: a one-message transcript renders to
the wrapped, indexed line. -/
theorem getConversationContext_spec_witness :
    getConversationContext (fun t => t) true false
        (some [{ role := "user", timestamp := "10:00", content := "hello" }]) =
      historyHeader ++
        String.intercalate "\n\n"
          (([{ role := "user", timestamp := "10:00", content := "hello" }] :
              List ChatMessage).drop
              (([{ role := "user", timestamp := "10:00", content := "hello" }] :
                List ChatMessage).length - 15) |>.mapIdx (formatLine (fun t => t))) ++
        historyFooter :=
  getConversationContext_spec.2.2.2.2.1 (fun t => t)
    [{ role := "user", timestamp := "10:00", content := "hello" }] (by decide)

/-- Claim C9 (implicit): deleteSessionMemories resolves its delete set by
sessionId alone.  Every row of the 1000-row enumeration page whose
sessionId equals the argument contributes its id (whatever its userId),
every resolved id comes from a row with that sessionId, relabelling every
userId in the store leaves the delete set unchanged, and the operation
returns the size of that set. -/
theorem deleteSessionMemories_ignores_userId :
    (∀ (rows : List ScoredMatch) (sid : String) (m : ScoredMatch),
        m ∈ indexQuery rows (fun md => md.sessionId == sid) 1000 →
        m.id ∈ deleteSessionIds rows sid) ∧
    (∀ (rows : List ScoredMatch) (sid id : String),
        id ∈ deleteSessionIds rows sid →
        ∃ m, m ∈ rows ∧ m.id = id ∧ ∃ md, m.metadata = some md ∧ md.sessionId = sid) ∧
    (∀ (f : String → String) (rows : List ScoredMatch) (sid : String),
        deleteSessionIds (rows.map (setRowUserId f)) sid = deleteSessionIds rows sid) ∧
    (∀ (rows : List ScoredMatch) (sid : String),
        deleteSessionMemories true false rows sid =
          .ok (deleteSessionIds rows sid).length) := by
  refine ⟨?_, ?_, ?_, ?_⟩
  · intro rows sid m hm
    exact List.mem_map.mpr ⟨m, hm, rfl⟩
  · intro rows sid id hid
    obtain ⟨m, hm, hmid⟩ := List.mem_map.mp hid
    obtain ⟨hmem, hmatch⟩ := mem_indexQuery hm
    refine ⟨m, hmem, hmid, ?_⟩
    unfold rowMatches at hmatch
    cases hmd : m.metadata with
    | none => rw [hmd] at hmatch; cases hmatch
    | some md =>
      rw [hmd] at hmatch
      exact ⟨md, rfl, by simpa using hmatch⟩
  · intro f rows sid
    have hrow : ∀ m : ScoredMatch,
        rowMatches (fun md => md.sessionId == sid) (setRowUserId f m) =
          rowMatches (fun md => md.sessionId == sid) m := by
      intro m
      rcases m with ⟨mid, mmeta, ms⟩
      cases mmeta <;> rfl
    unfold deleteSessionIds indexQuery
    rw [List.filter_map, ← List.map_take, List.map_map]
    have hfil :
        List.filter
            ((fun m => rowMatches (fun md => md.sessionId == sid) m) ∘ setRowUserId f)
            rows =
          List.filter (rowMatches (fun md => md.sessionId == sid)) rows := by
      refine List.filter_congr ?_
      intro m hm
      simpa [Function.comp] using hrow m
    rw [hfil]
    refine List.map_congr_left ?_
    intro m hm
    rfl
  · intro rows sid
    rfl

/-- Witness for C9 at concrete data: the sample row (owned by user u1)
contributes its id to the delete set of its session, and relabelling the
owner does not change the delete set. -/
theorem deleteSessionMemories_ignores_userId_witness :
    sampleRow.id ∈ deleteSessionIds [sampleRow] "s1" ∧
    deleteSessionIds ([sampleRow].map (setRowUserId (fun _ => "u2"))) "s1" =
      deleteSessionIds [sampleRow] "s1" :=
  ⟨deleteSessionMemories_ignores_userId.1 [sampleRow] "s1" sampleRow (by decide),
   deleteSessionMemories_ignores_userId.2.2.1 (fun _ => "u2") [sampleRow] "s1"⟩

/-- Claim C10 (implicit): every document returned by getUserMemories has
no sessionId in its metadata (the source omits the field when rebuilding
documents), even when the underlying record was stored with a nonempty
sessionId. -/
theorem getUserMemories_drops_sessionId :
    ∀ (rows : List ScoredMatch) (uid : String) (docs : List MemoryDocument)
      (d : MemoryDocument),
      getUserMemories true false rows uid = .ok docs →
      d ∈ docs →
      d.metadata.sessionId = none := by
  intro rows uid docs d hok hd
  have h1 : getUserMemories true false rows uid =
      .ok ((indexQuery rows (fun md => md.userId == uid) 1000).filterMap rowToDocument) := rfl
  rw [h1] at hok
  injection hok with hdocs
  rw [← hdocs] at hd
  obtain ⟨m, hm, hmd⟩ := List.mem_filterMap.mp hd
  rcases m with ⟨mid, mmeta, ms⟩
  cases mmeta with
  | none => simp [rowToDocument] at hmd
  | some md =>
    simp only [rowToDocument] at hmd
    have h2 := Option.some.inj hmd
    rw [← h2]

/-- Witness for C10 at concrete data: the sample row was stored under
session s1, yet its document as returned by getUserMemories carries no
sessionId. -/
theorem getUserMemories_drops_sessionId_witness :
    sampleDocument.metadata.sessionId = none :=
  getUserMemories_drops_sessionId [sampleRow] "u1" [sampleDocument] sampleDocument
    rfl (by decide)
